import Mathlib

/-!
Verification of the BMI-calculator core: the BMI classifier (`src/utils/bmi.ts`)
and the workout-plan builder (`buildWorkoutPlan`), together with the caller's
goal-inference rule.  JavaScript numbers are modelled as rationals (ℚ);
`Math.round`, `Math.ceil` and the one-decimal rounding helper are modelled
exactly (JS `Math.round x = ⌊x + 1/2⌋`, half toward +∞).  For the NaN behaviour
of the classifier a second embedding over a number type with NaN is given,
mirroring IEEE comparison semantics (every comparison with NaN is false).
-/

namespace BmiApp

/-- JS `Math.round`: round half toward +∞, as a ℚ → ℚ map (result is integral). -/
def jsRound (x : ℚ) : ℚ := (⌊x + 1/2⌋ : ℤ)

/-- JS `Math.ceil` as a ℚ → ℚ map (result is integral). -/
def jsCeil (x : ℚ) : ℚ := (⌈x⌉ : ℤ)

/-- `round1` from `src/utils/bmi.ts` / the plan builder: `Math.round(x*10)/10`. -/
def round1 (x : ℚ) : ℚ := jsRound (x * 10) / 10

/-- `calculateBmi` from `src/utils/bmi.ts`: `weightKg / h²` with `h = heightCm/100`. -/
def calculateBmi (weightKg heightCm : ℚ) : ℚ :=
  weightKg / ((heightCm / 100) * (heightCm / 100))

/-- `BmiClass` from `src/utils/bmi.ts`. -/
structure BmiClass where
  label : String
  note : String
deriving DecidableEq, Repr

/-- The six category records returned by `classifyBmi` (named here; the source
writes the record literals inline in the six return statements). -/
def underweightClass : BmiClass :=
  ⟨"Недостаточная масса тела",
   "Рекомендуется обсудить питание и режим с врачом/диетологом."⟩

/-- Category `18.5 ≤ bmi < 25`. -/
def normalClass : BmiClass :=
  ⟨"Нормальная масса тела",
   "Поддерживайте текущую активность и рацион."⟩

/-- Category `25 ≤ bmi < 30`. -/
def overweightClass : BmiClass :=
  ⟨"Избыточная масса тела",
   "Полезны умеренная активность и корректировка питания."⟩

/-- Category `30 ≤ bmi < 35`. -/
def obesity1Class : BmiClass :=
  ⟨"Ожирение I степени",
   "Рекомендуется консультация специалиста и план снижения веса."⟩

/-- Category `35 ≤ bmi < 40`. -/
def obesity2Class : BmiClass :=
  ⟨"Ожирение II степени",
   "Рекомендуется медицинское сопровождение и коррекция образа жизни."⟩

/-- Category `bmi ≥ 40` (also the NaN fall-through). -/
def obesity3Class : BmiClass :=
  ⟨"Ожирение III степени",
   "Рекомендуется срочная консультация врача и комплексное лечение."⟩

/-- `classifyBmi` from `src/utils/bmi.ts`: ordered chain of strict upper-bound
checks (`18.5 = 37/2`). -/
def classifyBmi (bmi : ℚ) : BmiClass :=
  if bmi < 37/2 then underweightClass
  else if bmi < 25 then normalClass
  else if bmi < 30 then overweightClass
  else if bmi < 35 then obesity1Class
  else if bmi < 40 then obesity2Class
  else obesity3Class

/-- A JS number that may be NaN (finite values as ℚ).  Used to model the
classifier's behaviour on non-finite input. -/
inductive JsNum where
  | nan : JsNum
  | num (q : ℚ) : JsNum
deriving DecidableEq

/-- IEEE `<` against a finite constant: every comparison with NaN is false. -/
def JsNum.lt : JsNum → ℚ → Bool
  | .nan, _ => false
  | .num q, c => decide (q < c)

/-- `classifyBmi` from `src/utils/bmi.ts`, embedded over `JsNum` so that the
NaN path of the comparison chain is represented faithfully. -/
def classifyBmiJs (bmi : JsNum) : BmiClass :=
  if bmi.lt (37/2) then underweightClass
  else if bmi.lt 25 then normalClass
  else if bmi.lt 30 then overweightClass
  else if bmi.lt 35 then obesity1Class
  else if bmi.lt 40 then obesity2Class
  else obesity3Class

/-- `Goal` from the plan-builder module: `"lose" | "gain" | "fit"`. -/
inductive Goal where
  | lose : Goal
  | gain : Goal
  | fit : Goal
deriving DecidableEq, Repr

/-- The `gymPlan` record of a `WorkoutPlan`. -/
structure GymPlan where
  strengthSessionsPerWeek : ℚ
  strengthMinutesPerSession : ℚ
  cardioSessionsPerWeek : ℚ
  cardioMinutesPerSession : ℚ
  stepsPerDay : ℚ
deriving DecidableEq, Repr

/-- `WorkoutPlan` from the plan-builder module.  The display-only `summary`
string (pure template interpolation of `targetWeightKg`/`targetBmi`) is not
modelled; no claim concerns it. -/
structure WorkoutPlan where
  goal : Goal
  targetBmi : ℚ
  currentWeightKg : ℚ
  targetWeightKg : ℚ
  deltaKg : ℚ
  estimatedWeeks : ℚ
  gymPlan : GymPlan
  notes : List String
deriving DecidableEq, Repr

/-- `clamp(n, min, max) = Math.max(min, Math.min(max, n))` from the plan builder. -/
def clamp (n lo hi : ℚ) : ℚ := max lo (min hi n)

/-- `weightForBmi(heightCm, bmi) = bmi * h * h` with `h = heightCm/100`. -/
def weightForBmi (heightCm bmi : ℚ) : ℚ :=
  bmi * (heightCm / 100) * (heightCm / 100)

/-- `buildWorkoutPlan` from the plan-builder module, field for field
(`summary` excepted, see `WorkoutPlan`).  `0.75 = 3/4`, `0.5 = 1/2`,
`0.35 = 7/20`; `needLose > 0` is `0 < needLose`; `bmi >= 30` is `30 ≤ bmi`. -/
def buildWorkoutPlan (weightKg heightCm bmi : ℚ) (goal : Goal) : WorkoutPlan :=
  let targetBmi : ℚ := if goal = .lose then 24 else if goal = .gain then 20 else 22
  let targetWeightKg : ℚ := round1 (weightForBmi heightCm targetBmi)
  let deltaKg : ℚ := round1 (targetWeightKg - weightKg)
  let lossRate : ℚ := if 30 ≤ bmi then 3/4 else 1/2
  let gainRate : ℚ := 7/20
  let estimatedWeeks : ℚ :=
    if goal = .lose then
      let needLose : ℚ := max 0 (weightKg - targetWeightKg)
      if 0 < needLose then jsCeil (needLose / lossRate) else 0
    else if goal = .gain then
      let needGain : ℚ := max 0 (targetWeightKg - weightKg)
      if 0 < needGain then jsCeil (needGain / gainRate) else 0
    else
      clamp (jsRound (8 + |22 - bmi| * 2)) 8 12
  let gymPlan : GymPlan :=
    if goal = .lose then ⟨3, 45, 3, 35, 8000⟩
    else if goal = .gain then ⟨4, 55, 2, 20, 6000⟩
    else ⟨3, 50, 2, 25, 7000⟩
  let notes : List String :=
    (if goal = .lose then
      ["Ставка на регулярность: силовые для сохранения мышц + умеренное кардио.",
       "Если есть противопоказания (сердце/суставы/давление) — согласуйте нагрузку со специалистом."]
     else []) ++
    (if goal = .gain then
      ["Для набора важны прогрессия нагрузок и достаточное питание (белок/калории).",
       "Кардио оставляем коротким, чтобы поддерживать выносливость."]
     else []) ++
    (if goal = .fit then
      ["Оценка " ++ "по ИМТ не отличает мышцы от жира: для точности используйте обхваты/фото/проценты жира."]
     else [])
  { goal := goal
    targetBmi := targetBmi
    currentWeightKg := round1 weightKg
    targetWeightKg := targetWeightKg
    deltaKg := round1 deltaKg
    estimatedWeeks := estimatedWeeks
    gymPlan := gymPlan
    notes := notes }

/-- `suggestedGoal` from the stats screen: inferred goal from the current BMI. -/
def suggestedGoal (bmi : ℚ) : Goal :=
  if 25 ≤ bmi then .lose
  else if bmi < 37/2 then .gain
  else .fit

/-- `effectiveGoal` from the stats screen:
`goal === "fit" && suggestedGoal !== "fit" ? suggestedGoal : goal`. -/
def effectiveGoal (goal : Goal) (bmi : ℚ) : Goal :=
  if goal = .fit ∧ suggestedGoal bmi ≠ .fit then suggestedGoal bmi else goal

/-! ### Helper lemmas -/

lemma jsCeil_mono {a b : ℚ} (hab : a ≤ b) : jsCeil a ≤ jsCeil b := by
  unfold jsCeil
  exact_mod_cast Int.ceil_le_ceil hab

lemma jsCeil_zero : jsCeil 0 = 0 := by
  simp [jsCeil]

/-- `jsCeil` through the floor function, in the form the `norm_num` floor
extension can evaluate on concrete rationals. -/
lemma jsCeil_eval (x : ℚ) : jsCeil x = ((-⌊-x⌋ : ℤ) : ℚ) := by
  unfold jsCeil
  rw [← neg_neg x, Int.ceil_neg, neg_neg]

/-- One-decimal rounding moves a value by at most `0.05`. -/
lemma abs_round1_sub (x : ℚ) : |round1 x - x| ≤ 1/20 := by
  unfold round1 jsRound
  have h1 : ((⌊x * 10 + 1/2⌋ : ℤ) : ℚ) ≤ x * 10 + 1/2 := Int.floor_le _
  have h2 : x * 10 + 1/2 < ((⌊x * 10 + 1/2⌋ : ℤ) : ℚ) + 1 := Int.lt_floor_add_one _
  rw [abs_le]
  constructor <;> [linarith; linarith]

/-- The `estimatedWeeks` of a Lose plan, as a single formula: the needed loss
is measured against the 1-decimal-rounded target weight. -/
lemma lose_estimatedWeeks (w h bmi : ℚ) :
    (buildWorkoutPlan w h bmi .lose).estimatedWeeks =
      jsCeil (max 0 (w - round1 (weightForBmi h 24)) /
        (if (30:ℚ) ≤ bmi then 3/4 else 1/2)) := by
  show (if 0 < max 0 (w - round1 (weightForBmi h 24)) then
      jsCeil (max 0 (w - round1 (weightForBmi h 24)) /
        (if (30:ℚ) ≤ bmi then 3/4 else 1/2))
    else 0) = _
  by_cases hp : 0 < max 0 (w - round1 (weightForBmi h 24))
  · rw [if_pos hp]
  · rw [if_neg hp]
    have h0 : max 0 (w - round1 (weightForBmi h 24)) = 0 :=
      le_antisymm (not_lt.mp hp) (le_max_left _ _)
    rw [h0, zero_div, jsCeil_zero]

/-- The `estimatedWeeks` of a Gain plan, as a single formula: the needed gain
is measured against the 1-decimal-rounded target weight. -/
lemma gain_estimatedWeeks (w h bmi : ℚ) :
    (buildWorkoutPlan w h bmi .gain).estimatedWeeks =
      jsCeil (max 0 (round1 (weightForBmi h 20) - w) / (7/20)) := by
  show (if 0 < max 0 (round1 (weightForBmi h 20) - w) then
      jsCeil (max 0 (round1 (weightForBmi h 20) - w) / (7/20))
    else 0) = _
  by_cases hp : 0 < max 0 (round1 (weightForBmi h 20) - w)
  · rw [if_pos hp]
  · rw [if_neg hp]
    have h0 : max 0 (round1 (weightForBmi h 20) - w) = 0 :=
      le_antisymm (not_lt.mp hp) (le_max_left _ _)
    rw [h0, zero_div, jsCeil_zero]

/-- Feeding a rounded inversion of the BMI formula back through `calculateBmi`
at heights of at least one metre stays within `0.05` of the inverted BMI. -/
lemma roundtrip_le (tb h : ℚ) (hh : 100 ≤ h) :
    |calculateBmi (round1 (weightForBmi h tb)) h - tb| ≤ 1/20 := by
  have hm1 : (1:ℚ) ≤ h / 100 := by linarith
  have hs1 : (1:ℚ) ≤ (h / 100) * (h / 100) := one_le_mul_of_one_le_of_one_le hm1 hm1
  have hspos : (0:ℚ) < (h / 100) * (h / 100) := by linarith
  have key : calculateBmi (round1 (weightForBmi h tb)) h - tb =
      (round1 (weightForBmi h tb) - weightForBmi h tb) / ((h / 100) * (h / 100)) := by
    unfold calculateBmi weightForBmi
    field_simp
    ring
  rw [key, abs_div, abs_of_pos hspos]
  calc |round1 (weightForBmi h tb) - weightForBmi h tb| / ((h / 100) * (h / 100))
      ≤ |round1 (weightForBmi h tb) - weightForBmi h tb| / 1 :=
        div_le_div_of_nonneg_left (abs_nonneg _) one_pos hs1
    _ = |round1 (weightForBmi h tb) - weightForBmi h tb| := div_one _
    _ ≤ 1/20 := abs_round1_sub _

/-- The ℚ-level and `JsNum`-level embeddings of `classifyBmi` agree on finite
inputs. -/
lemma classifyBmiJs_num (q : ℚ) : classifyBmiJs (JsNum.num q) = classifyBmi q := by
  simp [classifyBmiJs, classifyBmi, JsNum.lt]

/-! ### Claim theorems -/

/-- C1 (counterexample): at `weightKg = 79.9`, `heightCm = 170`, `bmi = 27`,
goal Lose, the code's `estimatedWeeks` (21, computed from the rounded target
weight 69.4) differs from the claimed
`ceil(max(0, weightKg − 24×(heightCm/100)²) / 0.5)` (22, from the raw target
69.36). -/
theorem loseWeeks_raw_difference_fails :
    ¬ ((buildWorkoutPlan (799/10) 170 27 .lose).estimatedWeeks =
      jsCeil (max 0 ((799/10 : ℚ) - 24 * (170/100) * (170/100)) / (1/2))) := by
  norm_num [buildWorkoutPlan, weightForBmi, round1, jsRound, jsCeil_eval, max_def]

/-- C1 (amended): `estimatedWeeks` for Lose and Gain is computed from the
difference against the 1-decimal-ROUNDED target weight
`round1(targetBmi × (heightCm/100)²)`: Lose gives
`ceil(max(0, weightKg − round1(24×(h/100)²)) / rate)` with rate `0.75` when
`bmi ≥ 30` and `0.5` otherwise, Gain gives
`ceil(max(0, round1(20×(h/100)²) − weightKg) / 0.35)`; both yield `0` when the
needed amount is `0`. -/
theorem estimatedWeeks_uses_rounded_target (w h bmi : ℚ) :
    (buildWorkoutPlan w h bmi .lose).estimatedWeeks =
      jsCeil (max 0 (w - round1 (weightForBmi h 24)) /
        (if (30:ℚ) ≤ bmi then 3/4 else 1/2)) ∧
    (buildWorkoutPlan w h bmi .gain).estimatedWeeks =
      jsCeil (max 0 (round1 (weightForBmi h 20) - w) / (7/20)) :=
  ⟨lose_estimatedWeeks w h bmi, gain_estimatedWeeks w h bmi⟩

/-- C2 (counterexample): at height 180 with canonical BMI, weights
`97.1 ≤ 97.2` are both above the target weight 77.8, yet `estimatedWeeks`
drops from 39 to 26, because the BMI crosses 30 and the weekly loss rate jumps
from 0.5 to 0.75. -/
theorem loseWeeks_not_monotone :
    (971/10 : ℚ) ≤ 972/10 ∧
    (buildWorkoutPlan (971/10) 180 (calculateBmi (971/10) 180) .lose).targetWeightKg
      ≤ 971/10 ∧
    (buildWorkoutPlan (972/10) 180 (calculateBmi (972/10) 180) .lose).targetWeightKg
      ≤ 972/10 ∧
    ¬ ((buildWorkoutPlan (971/10) 180 (calculateBmi (971/10) 180) .lose).estimatedWeeks ≤
       (buildWorkoutPlan (972/10) 180 (calculateBmi (972/10) 180) .lose).estimatedWeeks) := by
  refine ⟨by norm_num, ?_, ?_, ?_⟩ <;>
    norm_num [buildWorkoutPlan, weightForBmi, calculateBmi, round1, jsRound, jsCeil_eval,
      max_def]

/-- C2 (amended): for goal Lose with canonically derived BMI, `estimatedWeeks`
is monotone in the current weight as long as the two weights fall in the same
loss-rate regime (their BMIs sit on the same side of 30); and whenever the
input weight equals the plan's (rounded) target weight, `estimatedWeeks` is 0. -/
theorem loseWeeks_monotone_same_rate :
    (∀ h w1 w2 : ℚ, w1 ≤ w2 →
      ((30:ℚ) ≤ calculateBmi w1 h ↔ (30:ℚ) ≤ calculateBmi w2 h) →
      (buildWorkoutPlan w1 h (calculateBmi w1 h) .lose).estimatedWeeks ≤
      (buildWorkoutPlan w2 h (calculateBmi w2 h) .lose).estimatedWeeks) ∧
    (∀ h w bmi : ℚ, (buildWorkoutPlan w h bmi .lose).targetWeightKg = w →
      (buildWorkoutPlan w h bmi .lose).estimatedWeeks = 0) := by
  constructor
  · intro h w1 w2 hw hiff
    rw [lose_estimatedWeeks, lose_estimatedWeeks]
    have hrate : (if (30:ℚ) ≤ calculateBmi w2 h then (3/4 : ℚ) else 1/2) =
        (if (30:ℚ) ≤ calculateBmi w1 h then (3/4 : ℚ) else 1/2) := by
      by_cases h1 : (30:ℚ) ≤ calculateBmi w1 h
      · rw [if_pos h1, if_pos (hiff.mp h1)]
      · rw [if_neg h1, if_neg (fun h2 => h1 (hiff.mpr h2))]
    rw [hrate]
    have hrpos : (0:ℚ) < (if (30:ℚ) ≤ calculateBmi w1 h then (3/4 : ℚ) else 1/2) := by
      split <;> norm_num
    have hmax : max 0 (w1 - round1 (weightForBmi h 24)) ≤
        max 0 (w2 - round1 (weightForBmi h 24)) :=
      max_le_max le_rfl (by linarith)
    exact jsCeil_mono ((div_le_div_iff_of_pos_right hrpos).mpr hmax)
  · intro h w bmi htw
    have hT : round1 (weightForBmi h 24) = w := htw
    rw [lose_estimatedWeeks, hT]
    simp [jsCeil_zero]

/-- C2 (witness): monotonicity instance at height 180 for weights 90 ≤ 91
(both BMIs below 30), and the zero-weeks instance at the exact target weight
77.8 for height 180. -/
theorem loseWeeks_monotone_same_rate_witness :
    ((90:ℚ) ≤ 91 ∧
      ((30:ℚ) ≤ calculateBmi 90 180 ↔ (30:ℚ) ≤ calculateBmi 91 180) ∧
      (buildWorkoutPlan 90 180 (calculateBmi 90 180) .lose).estimatedWeeks ≤
      (buildWorkoutPlan 91 180 (calculateBmi 91 180) .lose).estimatedWeeks) ∧
    ((buildWorkoutPlan (389/5) 180 24 .lose).targetWeightKg = 389/5 ∧
      (buildWorkoutPlan (389/5) 180 24 .lose).estimatedWeeks = 0) :=
  ⟨⟨by norm_num, by norm_num [calculateBmi],
      loseWeeks_monotone_same_rate.1 180 90 91 (by norm_num)
        (by norm_num [calculateBmi])⟩,
   ⟨by norm_num [buildWorkoutPlan, weightForBmi, round1, jsRound],
    loseWeeks_monotone_same_rate.2 180 (389/5) 24
      (by norm_num [buildWorkoutPlan, weightForBmi, round1, jsRound])⟩⟩

/-- C3 (counterexample): at height 51 cm and goal Lose, the rounded target
weight 6.2 fed back through `calculateBmi` gives `≈ 23.84`, which is more than
0.05 away from the target BMI 24. -/
theorem targetWeight_roundtrip_fails_short_height :
    ¬ (|calculateBmi (buildWorkoutPlan 60 51 23 .lose).targetWeightKg 51 -
        (buildWorkoutPlan 60 51 23 .lose).targetBmi| ≤ 1/20) := by
  norm_num [buildWorkoutPlan, weightForBmi, calculateBmi, round1, jsRound, abs]

/-- C3 (amended): for every height of at least 100 cm and every goal, the
plan's 1-decimal-rounded target weight fed back through `calculateBmi`
reproduces the goal's fixed target BMI to within 0.05. -/
theorem targetWeight_roundtrip (w h bmi : ℚ) (g : Goal) (hh : (100:ℚ) ≤ h) :
    |calculateBmi (buildWorkoutPlan w h bmi g).targetWeightKg h -
      (buildWorkoutPlan w h bmi g).targetBmi| ≤ 1/20 := by
  cases g
  · exact roundtrip_le 24 h hh
  · exact roundtrip_le 20 h hh
  · exact roundtrip_le 22 h hh

/-- C3 (witness): the round-trip bound at height 170 for goal Gain. -/
theorem targetWeight_roundtrip_witness :
    (100:ℚ) ≤ 170 ∧
    |calculateBmi (buildWorkoutPlan 55 170 19 .gain).targetWeightKg 170 -
      (buildWorkoutPlan 55 170 19 .gain).targetBmi| ≤ 1/20 :=
  ⟨by norm_num, targetWeight_roundtrip 55 170 19 .gain (by norm_num)⟩

/-- C5: `classifyBmi` partitions ℚ along the boundaries 18.5, 25, 30, 35, 40,
each boundary value falling in the heavier category, each category carrying
its fixed label/note pair; the six category records are pairwise distinct, so
exactly one of them is returned for every input. -/
theorem classifyBmi_partition (bmi : ℚ) :
    (bmi < 37/2 → classifyBmi bmi = underweightClass) ∧
    (37/2 ≤ bmi → bmi < 25 → classifyBmi bmi = normalClass) ∧
    (25 ≤ bmi → bmi < 30 → classifyBmi bmi = overweightClass) ∧
    (30 ≤ bmi → bmi < 35 → classifyBmi bmi = obesity1Class) ∧
    (35 ≤ bmi → bmi < 40 → classifyBmi bmi = obesity2Class) ∧
    (40 ≤ bmi → classifyBmi bmi = obesity3Class) ∧
    [underweightClass, normalClass, overweightClass, obesity1Class, obesity2Class,
      obesity3Class].Pairwise (fun a b => a ≠ b) := by
  refine ⟨?_, ?_, ?_, ?_, ?_, ?_, by decide⟩
  · intro h1
    simp only [classifyBmi, if_pos h1]
  · intro h1 h2
    simp only [classifyBmi, if_neg (not_lt.mpr h1), if_pos h2]
  · intro h1 h2
    simp only [classifyBmi, if_neg (not_lt.mpr (by linarith : (37:ℚ)/2 ≤ bmi)),
      if_neg (not_lt.mpr h1), if_pos h2]
  · intro h1 h2
    simp only [classifyBmi, if_neg (not_lt.mpr (by linarith : (37:ℚ)/2 ≤ bmi)),
      if_neg (not_lt.mpr (by linarith : (25:ℚ) ≤ bmi)), if_neg (not_lt.mpr h1),
      if_pos h2]
  · intro h1 h2
    simp only [classifyBmi, if_neg (not_lt.mpr (by linarith : (37:ℚ)/2 ≤ bmi)),
      if_neg (not_lt.mpr (by linarith : (25:ℚ) ≤ bmi)),
      if_neg (not_lt.mpr (by linarith : (30:ℚ) ≤ bmi)), if_neg (not_lt.mpr h1),
      if_pos h2]
  · intro h1
    simp only [classifyBmi, if_neg (not_lt.mpr (by linarith : (37:ℚ)/2 ≤ bmi)),
      if_neg (not_lt.mpr (by linarith : (25:ℚ) ≤ bmi)),
      if_neg (not_lt.mpr (by linarith : (30:ℚ) ≤ bmi)),
      if_neg (not_lt.mpr (by linarith : (35:ℚ) ≤ bmi)),
      if_neg (not_lt.mpr h1)]

/-- C5 (witness): `bmi = 20` lies in `[18.5, 25)` and is classified as normal
weight. -/
theorem classifyBmi_partition_witness :
    (37:ℚ)/2 ≤ 20 ∧ (20:ℚ) < 25 ∧ classifyBmi 20 = normalClass :=
  ⟨by norm_num, by norm_num,
    (classifyBmi_partition 20).2.1 (by norm_num) (by norm_num)⟩

/-- C6: for goal Fit, `estimatedWeeks` is
`clamp(round(8 + |22 − bmi| × 2), 8, 12)` and hence always lies in `[8, 12]`,
independently of weight and height. -/
theorem fitWeeks_formula_and_bounds (w h bmi : ℚ) :
    (buildWorkoutPlan w h bmi .fit).estimatedWeeks =
      clamp (jsRound (8 + |22 - bmi| * 2)) 8 12 ∧
    8 ≤ (buildWorkoutPlan w h bmi .fit).estimatedWeeks ∧
    (buildWorkoutPlan w h bmi .fit).estimatedWeeks ≤ 12 := by
  refine ⟨rfl, ?_, ?_⟩
  · show (8:ℚ) ≤ max 8 (min 12 (jsRound (8 + |22 - bmi| * 2)))
    exact le_max_left _ _
  · show max 8 (min 12 (jsRound (8 + |22 - bmi| * 2))) ≤ (12:ℚ)
    exact max_le (by norm_num) (min_le_left _ _)

/-- C7: `targetBmi` and the `gymPlan` record are fixed per-goal lookups
(Lose: 24, 3×45 strength, 3×35 cardio, 8000 steps; Gain: 20, 4×55, 2×20,
6000; Fit: 22, 3×50, 2×25, 7000), independent of weight, height and BMI, and
the returned `goal` field echoes the input goal. -/
theorem plan_fixed_lookups (w h bmi : ℚ) :
    ((buildWorkoutPlan w h bmi .lose).targetBmi = 24 ∧
      (buildWorkoutPlan w h bmi .lose).gymPlan = ⟨3, 45, 3, 35, 8000⟩) ∧
    ((buildWorkoutPlan w h bmi .gain).targetBmi = 20 ∧
      (buildWorkoutPlan w h bmi .gain).gymPlan = ⟨4, 55, 2, 20, 6000⟩) ∧
    ((buildWorkoutPlan w h bmi .fit).targetBmi = 22 ∧
      (buildWorkoutPlan w h bmi .fit).gymPlan = ⟨3, 50, 2, 25, 7000⟩) ∧
    (∀ g : Goal, (buildWorkoutPlan w h bmi g).goal = g) :=
  ⟨⟨rfl, rfl⟩, ⟨rfl, rfl⟩, ⟨rfl, rfl⟩, fun g => by cases g <;> rfl⟩

/-- C8: the notes of every plan are a fixed ordered list per goal — two notes
for Lose (consistency/strength first, contraindication second), two for Gain
(progressive overload + nutrition first, short cardio second), one for Fit —
so every goal yields between 1 and 2 notes. -/
theorem plan_notes_exact (w h bmi : ℚ) :
    (buildWorkoutPlan w h bmi .lose).notes =
      ["Ставка на регулярность: силовые для сохранения мышц + умеренное кардио.",
       "Если есть противопоказания (сердце/суставы/давление) — согласуйте нагрузку со специалистом."] ∧
    (buildWorkoutPlan w h bmi .gain).notes =
      ["Для набора важны прогрессия нагрузок и достаточное питание (белок/калории).",
       "Кардио оставляем коротким, чтобы поддерживать выносливость."] ∧
    (buildWorkoutPlan w h bmi .fit).notes =
      ["Оценка по ИМТ не отличает мышцы от жира: для точности используйте обхваты/фото/проценты жира."] ∧
    (∀ g : Goal, 1 ≤ (buildWorkoutPlan w h bmi g).notes.length ∧
      (buildWorkoutPlan w h bmi g).notes.length ≤ 2) := by
  refine ⟨rfl, rfl, rfl, fun g => ?_⟩
  cases g
  · exact ⟨by show (1:ℕ) ≤ 2; norm_num, by show (2:ℕ) ≤ 2; norm_num⟩
  · exact ⟨by show (1:ℕ) ≤ 2; norm_num, by show (2:ℕ) ≤ 2; norm_num⟩
  · exact ⟨by show (1:ℕ) ≤ 1; norm_num, by show (1:ℕ) ≤ 2; norm_num⟩

/-- C9: the caller infers a goal from the current BMI (`bmi ≥ 25 → Lose`,
`bmi < 18.5 → Gain`, otherwise Fit) and the effective goal replaces the
selection with the suggestion only when the selection is Fit and the
suggestion is not Fit: explicit Lose/Gain are never overridden, and Fit with
suggestion Fit stays Fit. -/
theorem goal_inference_override (bmi : ℚ) :
    (25 ≤ bmi → suggestedGoal bmi = .lose) ∧
    (bmi < 37/2 → suggestedGoal bmi = .gain) ∧
    (37/2 ≤ bmi → bmi < 25 → suggestedGoal bmi = .fit) ∧
    effectiveGoal .lose bmi = .lose ∧
    effectiveGoal .gain bmi = .gain ∧
    (suggestedGoal bmi = .fit → effectiveGoal .fit bmi = .fit) ∧
    (suggestedGoal bmi ≠ .fit → effectiveGoal .fit bmi = suggestedGoal bmi) := by
  refine ⟨?_, ?_, ?_, ?_, ?_, ?_, ?_⟩
  · intro h1
    simp only [suggestedGoal, if_pos h1]
  · intro h1
    have h2 : ¬ (25 ≤ bmi) := by linarith
    simp only [suggestedGoal, if_neg h2, if_pos h1]
  · intro h1 h2
    simp only [suggestedGoal, if_neg (not_le.mpr h2), if_neg (not_lt.mpr h1)]
  · simp [effectiveGoal]
  · simp [effectiveGoal]
  · intro h1
    simp [effectiveGoal, h1]
  · intro h1
    simp [effectiveGoal, h1]

/-- C9 (witness): at `bmi = 30` the suggestion is Lose; an explicit Lose stays
Lose, and an explicit Fit is overridden to the suggestion. -/
theorem goal_inference_override_witness :
    (25:ℚ) ≤ 30 ∧ suggestedGoal 30 = .lose ∧
    effectiveGoal .lose 30 = .lose ∧
    suggestedGoal 30 ≠ .fit ∧ effectiveGoal .fit 30 = suggestedGoal 30 :=
  ⟨by norm_num, (goal_inference_override 30).1 (by norm_num),
   (goal_inference_override 30).2.2.2.1,
   by decide, (goal_inference_override 30).2.2.2.2.2.2 (by decide)⟩

/-- C10: the `JsNum` embedding of `classifyBmi` on NaN input, where every
threshold comparison is false, falls through every branch and returns the
Obesity class III record with its note. -/
theorem classifyBmi_nan_heaviest :
    classifyBmiJs JsNum.nan = obesity3Class := rfl

end BmiApp
